import Mathlib

/-!
Verification of the asynchronous image-generation pipeline of
script-to-storyboards: the RunningHub concurrency admission manager
(src/models/qwen_image_t2i_RH.py, src/models/jimeng_img2img_RH.py),
the submission and polling loops of the two RunningHub clients, the
task store operations (src/utils/ai_task_manager.py) and the worker
passes of the background task processor
(src/background/task_processor.py).

Python integers are modelled as `Int` (they are unbounded), optional
values as `Option`, and a task's database row as a record.  Stateful
code is modelled by explicit state passing; call sequences are lists of
operations folded over the state.  Definitions come first, then the
lemmas and theorems about them.
-/

namespace ScriptToStoryboards

/-! ### RunningHub concurrency manager

`RunningHubConcurrencyManager` keeps two Python integer counters,
`submitted_tasks` and `running_tasks`, and a fixed bound
`max_concurrent`.  All methods run inside `self.lock`, so each call is
one atomic step.  The `conservative_threshold` field is not read by
any modelled operation and is omitted. -/

structure CM where
  max_concurrent : Int
  submitted_tasks : Int
  running_tasks : Int
deriving DecidableEq

/-- `RunningHubConcurrencyManager.__init__`: both counters start at zero. -/
def CM.init (mc : Int) : CM := ⟨mc, 0, 0⟩

/-- `try_submit_task`: atomically check `submitted_tasks < max_concurrent`;
on success increment both counters and return `True`, otherwise return
`False` with no state change. -/
def trySubmitTask (s : CM) : Bool × CM :=
  if s.submitted_tasks < s.max_concurrent then
    (true, { s with submitted_tasks := s.submitted_tasks + 1,
                    running_tasks := s.running_tasks + 1 })
  else
    (false, s)

/-- `task_finished`: decrement both counters, floored at zero
(`max(0, x - 1)` in the source). -/
def taskFinished (s : CM) : CM :=
  { s with submitted_tasks := max 0 (s.submitted_tasks - 1),
           running_tasks := max 0 (s.running_tasks - 1) }

/-- The dictionary returned by `get_status`. -/
structure CMStatus where
  submitted : Int
  running : Int
  queued : Int
  max_concurrent : Int
deriving DecidableEq

/-- `get_status`: read-only snapshot with `queued = submitted - running`. -/
def getStatus (s : CM) : CMStatus :=
  { submitted := s.submitted_tasks
    running := s.running_tasks
    queued := s.submitted_tasks - s.running_tasks
    max_concurrent := s.max_concurrent }

/-- The manager calls considered by the admission claims, each an atomic
step (each method body is a single critical section under `self.lock`). -/
inductive CMOp
  | trySubmit
  | finish
deriving DecidableEq

/-- Effect of one manager call on the counters. -/
def cmStep (s : CM) : CMOp → CM
  | .trySubmit => (trySubmitTask s).2
  | .finish => taskFinished s

/-- Folding a call sequence over the manager state. -/
def cmRun (s : CM) : List CMOp → CM
  | [] => s
  | op :: ops => cmRun (cmStep s op) ops

/-- Number of `try_submit_task` calls in the trace that return `True`
(successful acquisitions). -/
def acqCount (s : CM) : List CMOp → Nat
  | [] => 0
  | .trySubmit :: ops =>
      (if (trySubmitTask s).1 then 1 else 0) + acqCount (cmStep s .trySubmit) ops
  | .finish :: ops => acqCount (cmStep s .finish) ops

/-- Number of `task_finished` calls (releases) in the trace. -/
def relCount : List CMOp → Nat
  | [] => 0
  | .trySubmit :: ops => relCount ops
  | .finish :: ops => 1 + relCount ops

/-! ### generate_image: slot acquisition and scoped release

`QwenImageT2IRH.generate_image` and `JimengImg2ImgRH.generate_image`
wrap their whole body in try/except/finally: the finally clause calls
`_concurrency_manager.task_finished()` exactly when `slot_acquired` is
true.  Between acquisition and the finally clause the body never
touches the manager, so the body is abstracted by the exit path it
takes; every exit of the try block (a return, or an exception turned
into `return None` by the except clause) passes through the finally
clause. -/

/-- Exit paths of the try block of `generate_image`. -/
inductive GenExit (R : Type)
  | raised
  | submitFailed
  | badTaskData
  | polled (r : Option R)

/-- Value returned by the call on each exit path (an exception is
turned into `return None` by the except clause). -/
def exitResult {R : Type} : GenExit R → Option R
  | .raised => none
  | .submitFailed => none
  | .badTaskData => none
  | .polled r => r

/-- Observable effect of one `generate_image` call: the returned value,
the manager state after the call, and how many times `task_finished`
was called during the call. -/
structure GenResult (R : Type) where
  result : Option R
  finalCM : CM
  releases : Nat
deriving DecidableEq

/-- The finally clause `if slot_acquired: _concurrency_manager.task_finished()`,
instrumented with the count of `task_finished` calls it makes. -/
def runFinally {R : Type} (slotAcquired : Bool) (s : CM) (res : Option R) :
    GenResult R :=
  if slotAcquired then ⟨res, taskFinished s, 1⟩ else ⟨res, s, 0⟩

/-- Concurrency skeleton of `QwenImageT2IRH.generate_image`.  With
concurrency control, the wait loop `while not try_submit_task(): sleep(2)`
either acquires a slot at once or — in this model, where no other caller
can release a slot meanwhile — never terminates (`none`).  After
acquisition, `slot_acquired` is true and every exit of the try block
runs the finally clause on the post-acquisition state. -/
def generateImage {R : Type} (s : CM) (useCC : Bool) (ex : GenExit R) :
    Option (GenResult R) :=
  if useCC then
    match trySubmitTask s with
    | (false, _) => none
    | (true, s1) =>
      match ex with
      | .raised => some (runFinally true s1 none)
      | .submitFailed => some (runFinally true s1 none)
      | .badTaskData => some (runFinally true s1 none)
      | .polled r => some (runFinally true s1 r)
  else
    some (runFinally false s (exitResult ex))

/-- Keys of `JimengImg2ImgRH.MODEL_CONFIGS`: the supported input-image
counts. -/
def MODEL_CONFIGS_keys : List Nat := [1, 2, 3, 4, 5]

/-- `JimengImg2ImgRH.generate_image`: the same skeleton, except that the
input-count check `if num_images not in self.MODEL_CONFIGS: return None`
runs before the try block, hence before any slot acquisition. -/
def jimengGenerateImage {R : Type} (s : CM) (numImages : Nat) (useCC : Bool)
    (ex : GenExit R) : Option (GenResult R) :=
  if numImages ∈ MODEL_CONFIGS_keys then
    generateImage s useCC ex
  else
    some ⟨none, s, 0⟩

/-! ### Submission loop of QwenImageT2IRH.generate_image

`for attempt in range(max_submission_retries)`: POST the task; on
`code == 0` break with success; if the message contains
TASK_QUEUE_MAXED and another attempt remains, sleep
`base_retry_delay * (2 ** attempt) + random.uniform(0, 1)` and retry;
on any other error return None immediately. -/

/-- Provider response to one submission POST. -/
structure SubmitResp where
  code : Int
  msg : String
deriving DecidableEq

/-- Whether the character list `s` begins with the character list `p`. -/
def leadsWith : List Char → List Char → Bool
  | _, [] => true
  | [], _ :: _ => false
  | c :: cs, q :: qs => c == q && leadsWith cs qs

/-- Python's substring test `p in s`, on character lists. -/
def hasSub (p : List Char) : List Char → Bool
  | [] => leadsWith [] p
  | c :: cs => leadsWith (c :: cs) p || hasSub p cs

/-- The check `'TASK_QUEUE_MAXED' in error_msg`. -/
def hasQueueMaxed (m : String) : Bool :=
  hasSub "TASK_QUEUE_MAXED".toList m.toList

/-- `max_submission_retries = 3` in the source. -/
def max_submission_retries : Nat := 3

/-- `base_retry_delay = 5` in the source. -/
def base_retry_delay : ℚ := 5

/-- Backoff slept before the retry that follows attempt `attempt`:
`base_retry_delay * (2 ** attempt) + random.uniform(0, 1)`, the uniform
draw given by `jitter`. -/
def retryDelay (attempt : Nat) (jitter : ℚ) : ℚ :=
  base_retry_delay * 2 ^ attempt + jitter

/-- The submission for-loop from iteration `attempt` with `rem`
iterations remaining, the response to the i-th POST read from `resps i`
and the jitter of attempt i from `jitter i`.  Returns the index of the
successful attempt (if any), the number of POSTs issued, and the
backoff delays slept. -/
def submitFrom (resps : Nat → SubmitResp) (jitter : Nat → ℚ) :
    Nat → Nat → Option Nat × Nat × List ℚ
  | _, 0 => (none, 0, [])
  | attempt, rem + 1 =>
    if (resps attempt).code = 0 then
      (some attempt, 1, [])
    else if hasQueueMaxed (resps attempt).msg ∧
        attempt < max_submission_retries - 1 then
      let r := submitFrom resps jitter (attempt + 1) rem
      (r.1, r.2.1 + 1, retryDelay attempt (jitter attempt) :: r.2.2)
    else
      (none, 1, [])

/-- The whole submission loop: start at attempt 0 with
`max_submission_retries` iterations. -/
def qwenSubmissionLoop (resps : Nat → SubmitResp) (jitter : Nat → ℚ) :
    Option Nat × Nat × List ℚ :=
  submitFrom resps jitter 0 max_submission_retries

/-- A provider that always reports a queue-full error. -/
def queueMaxedResps : Nat → SubmitResp :=
  fun _ => { code := 421, msg := "APIKEY_TASK_QUEUE_MAXED" }

/-- A provider that reports an unrelated submission error. -/
def plainErrResps : Nat → SubmitResp :=
  fun _ => { code := 500, msg := "INVALID_NODE_INFO" }

/-- Zero random jitter. -/
def zeroJitter : Nat → ℚ := fun _ => 0

/-! ### Polling loops of the two RunningHub clients -/

/-- Provider task status strings; `UNKNOWN` stands for any string other
than the five recognized values. -/
inductive RHStatus
  | SUCCESS
  | FAIL
  | CANCEL
  | QUEUED
  | RUNNING
  | UNKNOWN
deriving DecidableEq

/-- One provider response to a status query.  `transientErr` covers
every path the source treats as transient: a requests exception, a
non-2xx HTTP response, a JSON error, and a business error
(`code != 0`). -/
inductive PollResp
  | transientErr
  | ok (st : RHStatus)
deriving DecidableEq

/-- Outcome of one whole `_poll_task_status` call. -/
inductive PollOutcome
  | gotResult
  | terminalFail
  | pollExhausted
  | timedOut
deriving DecidableEq

/-- Result of the qwen inner retry loop: either the whole call ends with
an outcome, or the poll attempt succeeded with a non-terminal status
and the outer loop continues. -/
inductive InnerRes
  | final (o : PollOutcome)
  | again
deriving DecidableEq

/-- `max_poll_retries = 3` in `QwenImageT2IRH._poll_task_status`. -/
def max_poll_retries : Nat := 3

/-- Inner retry loop of `QwenImageT2IRH._poll_task_status`:
`current_retries` starts at `max_poll_retries`; each transient error
consumes one retry; a non-terminal provider status (QUEUED, RUNNING, or
an unknown status string) sets `poll_successful = True` and breaks out;
running out of retries fails the whole call.  The second component is
the index of the next unread response. -/
def qwenInner (resps : Nat → PollResp) (i : Nat) : Nat → InnerRes × Nat
  | 0 => (InnerRes.final PollOutcome.pollExhausted, i)
  | r + 1 =>
    match resps i with
    | .ok RHStatus.SUCCESS => (InnerRes.final PollOutcome.gotResult, i + 1)
    | .ok RHStatus.FAIL => (InnerRes.final PollOutcome.terminalFail, i + 1)
    | .ok RHStatus.CANCEL => (InnerRes.final PollOutcome.terminalFail, i + 1)
    | .ok RHStatus.QUEUED => (InnerRes.again, i + 1)
    | .ok RHStatus.RUNNING => (InnerRes.again, i + 1)
    | .ok RHStatus.UNKNOWN => (InnerRes.again, i + 1)
    | .transientErr => qwenInner resps (i + 1) r

/-- Outer loop of `QwenImageT2IRH._poll_task_status`.  The wall-clock
timeout check at the top of each iteration is modelled by `fuel`, the
number of iterations the time budget still allows. -/
def qwenPollLoop (resps : Nat → PollResp) (i : Nat) : Nat → PollOutcome
  | 0 => PollOutcome.timedOut
  | fuel + 1 =>
    match qwenInner resps i max_poll_retries with
    | (InnerRes.final o, _) => o
    | (InnerRes.again, j) => qwenPollLoop resps j fuel

/-- `JimengImg2ImgRH._poll_task_status`: a single while-loop bounded by
the overall timeout; a transient error, a business error, or a
non-terminal status just sleeps and polls again — there is no inner
retry counter. -/
def jimengPollLoop (resps : Nat → PollResp) (i : Nat) : Nat → PollOutcome
  | 0 => PollOutcome.timedOut
  | fuel + 1 =>
    match resps i with
    | .ok RHStatus.SUCCESS => PollOutcome.gotResult
    | .ok RHStatus.FAIL => PollOutcome.terminalFail
    | .ok RHStatus.CANCEL => PollOutcome.terminalFail
    | _ => jimengPollLoop resps (i + 1) fuel

/-- The response stream `resps` preceded by `k` transient errors. -/
def padErrs (k : Nat) (resps : Nat → PollResp) : Nat → PollResp :=
  fun n => if n < k then PollResp.transientErr else resps (n - k)

/-- Four consecutive transient polling errors followed by provider
SUCCESS forever. -/
def fourErrsThenSuccess : Nat → PollResp :=
  fun n => if n < 4 then PollResp.transientErr else PollResp.ok RHStatus.SUCCESS

/-- A provider that always reports QUEUED. -/
def allQueuedResps : Nat → PollResp := fun _ => PollResp.ok RHStatus.QUEUED

/-! ### AITaskManager: the ai_tasks row and update_task -/

/-- `TaskStatus` enum of src/utils/ai_task_manager.py. -/
inductive TaskStatus
  | PENDING
  | SUBMITTED
  | QUEUED
  | RUNNING
  | SUCCESS
  | FAILED
  | TIMEOUT
deriving DecidableEq

/-- One row of the `ai_tasks` table, restricted to the columns the
claims are about.  `task_id` is the provider (RunningHub) task handle
column.  Timestamps are abstract clock readings. -/
structure AITask where
  status : TaskStatus
  task_id : Option String
  result_url : Option String
  r2_key : Option String
  error_message : Option String
  retry_count : Int
  max_retries : Int
  submitted_at : Option Nat
  completed_at : Option Nat
  last_poll_at : Option Nat
deriving DecidableEq

/-- Python truthiness of an optional string (`if runninghub_task_id:`
and `if not runninghub_task_id:` in the source): `None` and the empty
string are falsy. -/
def strTruthy : Option String → Bool
  | none => false
  | some s => !(s == "")

/-- Keyword arguments of `AITaskManager.update_task`. -/
structure UpdateArgs where
  status : Option TaskStatus := none
  runninghub_task_id : Option String := none
  result_url : Option String := none
  r2_key : Option String := none
  error_message : Option String := none
  increment_retry : Bool := false

/-- Status clause of `update_task`: `status = %s`, plus `submitted_at =
NOW()` when the new status is SUBMITTED and `completed_at = NOW()` when
it is SUCCESS, FAILED or TIMEOUT. -/
def applyStatusArg (t : AITask) (st : Option TaskStatus) (now : Nat) : AITask :=
  match st with
  | none => t
  | some s =>
    let ta := { t with status := s }
    let tb :=
      if s = TaskStatus.SUBMITTED then { ta with submitted_at := some now } else ta
    if s = TaskStatus.SUCCESS ∨ s = TaskStatus.FAILED ∨ s = TaskStatus.TIMEOUT then
      { tb with completed_at := some now }
    else tb

/-- Provider-id clause: `if runninghub_task_id:` — a falsy argument
(None or empty) leaves the column untouched. -/
def applyRid (t : AITask) (rid : Option String) : AITask :=
  match rid with
  | none => t
  | some r => if r == "" then t else { t with task_id := some r }

/-- `if result_url is not None:` clause. -/
def applyResultUrl (t : AITask) (u : Option String) : AITask :=
  match u with
  | none => t
  | some v => { t with result_url := some v }

/-- `if r2_key is not None:` clause. -/
def applyR2Key (t : AITask) (k : Option String) : AITask :=
  match k with
  | none => t
  | some v => { t with r2_key := some v }

/-- `if error_message is not None:` clause. -/
def applyErrMsg (t : AITask) (m : Option String) : AITask :=
  match m with
  | none => t
  | some v => { t with error_message := some v }

/-- `if increment_retry:` clause: `retry_count = retry_count + 1`. -/
def applyIncr (t : AITask) (inc : Bool) : AITask :=
  if inc then { t with retry_count := t.retry_count + 1 } else t

/-- `if status in [TaskStatus.QUEUED, TaskStatus.RUNNING]:` clause:
`last_poll_at = NOW()` (the test is on the status argument). -/
def applyLastPoll (t : AITask) (st : Option TaskStatus) (now : Nat) : AITask :=
  if st = some TaskStatus.QUEUED ∨ st = some TaskStatus.RUNNING then
    { t with last_poll_at := some now }
  else t

/-- `if not updates: return False` — whether any clause was appended. -/
def wantsWrite (a : UpdateArgs) : Bool :=
  a.status.isSome || strTruthy a.runninghub_task_id || a.result_url.isSome ||
    a.r2_key.isSome || a.error_message.isSome || a.increment_retry ||
    (a.status == some TaskStatus.QUEUED) || (a.status == some TaskStatus.RUNNING)

/-- `AITaskManager.update_task`: apply the appended clauses in source
order; return the updated row and whether an UPDATE statement was
issued (`False` means no clause was appended and no write happened). -/
def updateTask (t : AITask) (a : UpdateArgs) (now : Nat) : AITask × Bool :=
  if wantsWrite a then
    (applyLastPoll
      (applyIncr
        (applyErrMsg
          (applyR2Key
            (applyResultUrl
              (applyRid (applyStatusArg t a.status now) a.runninghub_task_id)
              a.result_url)
            a.r2_key)
          a.error_message)
        a.increment_retry)
      a.status now, true)
  else (t, false)

/-- `AITaskManager.reset_task_for_retry`: delegate to `update_task` with
status PENDING, `runninghub_task_id=None`, `error_message=None`,
`increment_retry=True`. -/
def resetTaskForRetry (t : AITask) (now : Nat) : AITask × Bool :=
  updateTask t { status := some TaskStatus.PENDING, runninghub_task_id := none,
                 error_message := none, increment_retry := true } now

/-- `AITaskManager.create_task`: a new row is inserted with the given
`max_retries`; the remaining columns take the table defaults the rest
of the code relies on — status PENDING, `retry_count` 0, provider and
result columns NULL. -/
def createTask (mr : Int) : AITask :=
  { status := TaskStatus.PENDING, task_id := none, result_url := none,
    r2_key := none, error_message := none, retry_count := 0,
    max_retries := mr, submitted_at := none, completed_at := none,
    last_poll_at := none }

/-! ### TaskProcessor: the four worker passes -/

/-- What `_check_task_status` learns from the environment on one visit:
`info` is the remote status from `check_task_status` (`none` when the
query returned nothing), `postOk` tells whether the whole SUCCESS
post-processing sequence (fetch URL, upload to R2, update the entity)
succeeds, and the strings are the values those collaborators produce. -/
structure PollObs where
  info : Option RHStatus
  postOk : Bool
  cdn_url : String
  obs_r2_key : String
  errText : String

/-- `new_status = TaskStatus.QUEUED if remote_status == 'QUEUED' else
TaskStatus.RUNNING` (only reached for QUEUED/RUNNING). -/
def newStatusOf (rs : RHStatus) : TaskStatus :=
  if rs = RHStatus.QUEUED then TaskStatus.QUEUED else TaskStatus.RUNNING

/-- `TaskProcessor._check_task_status` on one task row, instrumented
with the number of `update_task` calls (database writes) it issues.
A missing provider id or an unanswerable status query skips the task;
QUEUED/RUNNING is written back only when it differs from the stored
status; SUCCESS runs post-processing and writes SUCCESS or FAILED;
FAIL/CANCEL writes FAILED; any other remote status falls through the
if/elif chain with no write. -/
def checkTaskStatus (t : AITask) (obs : PollObs) (now : Nat) : AITask × Nat :=
  if strTruthy t.task_id = false then (t, 0)
  else
    match obs.info with
    | none => (t, 0)
    | some RHStatus.QUEUED =>
      if t.status ≠ newStatusOf RHStatus.QUEUED then
        ((updateTask t { status := some TaskStatus.QUEUED } now).1, 1)
      else (t, 0)
    | some RHStatus.RUNNING =>
      if t.status ≠ newStatusOf RHStatus.RUNNING then
        ((updateTask t { status := some TaskStatus.RUNNING } now).1, 1)
      else (t, 0)
    | some RHStatus.SUCCESS =>
      if obs.postOk then
        ((updateTask t { status := some TaskStatus.SUCCESS,
                         result_url := some obs.cdn_url,
                         r2_key := some obs.obs_r2_key } now).1, 1)
      else
        ((updateTask t { status := some TaskStatus.FAILED,
                         error_message := some obs.errText } now).1, 1)
    | some RHStatus.FAIL =>
      ((updateTask t { status := some TaskStatus.FAILED,
                       error_message := some obs.errText } now).1, 1)
    | some RHStatus.CANCEL =>
      ((updateTask t { status := some TaskStatus.FAILED,
                       error_message := some obs.errText } now).1, 1)
    | some RHStatus.UNKNOWN => (t, 0)

/-- Membership in the active set SUBMITTED/QUEUED/RUNNING
(`get_active_tasks` and `get_timeout_tasks` select on it). -/
def isActive (st : TaskStatus) : Bool :=
  st == TaskStatus.SUBMITTED || st == TaskStatus.QUEUED || st == TaskStatus.RUNNING

/-- WHERE clause of `get_failed_tasks_for_retry`: status FAILED and
`retry_count < max_retries`.  The creation-age window only shrinks the
selection and is omitted. -/
def retryEligible (t : AITask) : Bool :=
  t.status == TaskStatus.FAILED && decide (t.retry_count < t.max_retries)

/-- WHERE clause of `get_timeout_tasks`: an active status whose
`submitted_at` is older than the threshold (a NULL `submitted_at` is
never selected by the SQL comparison). -/
def staleAt (t : AITask) (thresh now : Nat) : Bool :=
  isActive t.status &&
    match t.submitted_at with
    | some ts => decide (ts + thresh < now)
    | none => false

/-- One worker-pass visit to a single task, with the environment's
contribution: the provider submission result, the poll observation, and
the clock reading. -/
inductive WorkerEvent
  | submitOk (rid : String) (now : Nat)
  | submitErr (msg : String) (now : Nat)
  | pollVisit (obs : PollObs) (now : Nat)
  | timeoutSweep (now : Nat)
  | retrySweep (now : Nat)

/-- Effect of one pass visit on one task row.  Each pass first selects
by status (the WHERE clause of the corresponding query); a task the
query does not select is untouched by that pass. -/
def workerStep (thresh : Nat) (t : AITask) : WorkerEvent → AITask
  | .submitOk rid now =>
    if t.status = TaskStatus.PENDING then
      (updateTask t { status := some TaskStatus.SUBMITTED,
                      runninghub_task_id := some rid } now).1
    else t
  | .submitErr msg now =>
    if t.status = TaskStatus.PENDING then
      (updateTask t { status := some TaskStatus.FAILED,
                      error_message := some msg } now).1
    else t
  | .pollVisit obs now =>
    if isActive t.status then (checkTaskStatus t obs now).1 else t
  | .timeoutSweep now =>
    if staleAt t thresh now then
      (updateTask t { status := some TaskStatus.TIMEOUT,
                      error_message := some "task timed out" } now).1
    else t
  | .retrySweep now =>
    if retryEligible t then (resetTaskForRetry t now).1 else t

/-- Folding a sequence of pass visits over one task row. -/
def runWorker (thresh : Nat) (t : AITask) : List WorkerEvent → AITask
  | [] => t
  | e :: es => runWorker thresh (workerStep thresh t e) es

/-- A FAILED row holding a provider handle and an error message, with
retry budget remaining. -/
def failedTask : AITask :=
  { status := TaskStatus.FAILED, task_id := some "rh-123",
    result_url := none, r2_key := none,
    error_message := some "provider error", retry_count := 1,
    max_retries := 3, submitted_at := some 10, completed_at := some 20,
    last_poll_at := some 15 }

/-- A QUEUED row as the poll pass sees it. -/
def queuedTask : AITask :=
  { status := TaskStatus.QUEUED, task_id := some "rh-9",
    result_url := none, r2_key := none, error_message := none,
    retry_count := 0, max_retries := 3, submitted_at := some 10,
    completed_at := none, last_poll_at := some 100 }

/-- A poll observation reporting QUEUED. -/
def queuedObs : PollObs :=
  { info := some RHStatus.QUEUED, postOk := true, cdn_url := "",
    obs_r2_key := "", errText := "" }

/-- A FAILED row whose retry budget is exhausted. -/
def exhaustedTask : AITask :=
  { failedTask with retry_count := 3 }

/-- A row stuck in TIMEOUT. -/
def timeoutTask : AITask :=
  { failedTask with status := TaskStatus.TIMEOUT }

/-- A SUBMITTED row as the poll pass sees it. -/
def submittedTask : AITask :=
  { queuedTask with status := TaskStatus.SUBMITTED }

/-! ## Lemmas and theorems -/

lemma cmStep_max (s : CM) (op : CMOp) :
    (cmStep s op).max_concurrent = s.max_concurrent := by
  cases op
  · simp only [cmStep, trySubmitTask]
    split <;> rfl
  · rfl

lemma cmRun_max (ops : List CMOp) (s : CM) :
    (cmRun s ops).max_concurrent = s.max_concurrent := by
  induction ops generalizing s with
  | nil => rfl
  | cons op ops ih => rw [cmRun, ih, cmStep_max]

lemma cmStep_submitted_bound (s : CM) (op : CMOp)
    (h0 : 0 ≤ s.submitted_tasks) (hb : s.submitted_tasks ≤ s.max_concurrent)
    (hm : 0 ≤ s.max_concurrent) :
    0 ≤ (cmStep s op).submitted_tasks ∧
      (cmStep s op).submitted_tasks ≤ s.max_concurrent := by
  cases op
  · simp only [cmStep, trySubmitTask]
    split <;> simp <;> omega
  · simp only [cmStep, taskFinished]
    constructor <;> simp <;> omega

lemma cmRun_submitted_bound (ops : List CMOp) (s : CM)
    (h0 : 0 ≤ s.submitted_tasks) (hb : s.submitted_tasks ≤ s.max_concurrent)
    (hm : 0 ≤ s.max_concurrent) :
    0 ≤ (cmRun s ops).submitted_tasks ∧
      (cmRun s ops).submitted_tasks ≤ s.max_concurrent := by
  induction ops generalizing s with
  | nil => exact ⟨h0, hb⟩
  | cons op ops ih =>
    have hs := cmStep_submitted_bound s op h0 hb hm
    have hmax := cmStep_max s op
    have := ih (cmStep s op) hs.1 (hmax ▸ hs.2) (hmax ▸ hm)
    rw [cmRun]
    exact ⟨this.1, hmax ▸ this.2⟩

/-- Successful acquisitions minus releases is a lower bound on the
`submitted_tasks` counter: flooring at zero in `task_finished` can only
raise the counter above the exact difference. -/
lemma acq_rel_le_submitted (ops : List CMOp) (s : CM) :
    s.submitted_tasks + (acqCount s ops : Int) - relCount ops ≤
      (cmRun s ops).submitted_tasks := by
  induction ops generalizing s with
  | nil => simp [cmRun, acqCount, relCount]
  | cons op ops ih =>
    cases op
    · by_cases h : s.submitted_tasks < s.max_concurrent
      · have ih2 := ih { s with submitted_tasks := s.submitted_tasks + 1,
                                running_tasks := s.running_tasks + 1 }
        simp only [cmRun, acqCount, relCount, cmStep, trySubmitTask, if_pos h] at *
        push_cast at *
        omega
      · have ih2 := ih s
        simp only [cmRun, acqCount, relCount, cmStep, trySubmitTask, if_neg h,
          Bool.false_eq_true, reduceIte] at *
        omega
    · have ih2 := ih (taskFinished s)
      simp only [cmRun, acqCount, relCount, cmStep] at *
      push_cast at *
      have : (taskFinished s).submitted_tasks = max 0 (s.submitted_tasks - 1) := rfl
      omega

/-- Claim C1: over every sequence of atomic `try_submit_task` and
`task_finished` calls starting from a fresh manager with a nonnegative
`max_concurrent`, the number of successful acquisitions not yet matched
by a release never exceeds `max_concurrent`; and a `try_submit_task`
call that returns `False` leaves both counters unchanged. -/
theorem c1_admission_bound (mc : Int) (ops : List CMOp) (hmc : 0 ≤ mc) :
    ((acqCount (CM.init mc) ops : Int) - relCount ops ≤ mc) ∧
    ∀ s : CM, (trySubmitTask s).1 = false → (trySubmitTask s).2 = s := by
  constructor
  · have hb := cmRun_submitted_bound ops (CM.init mc) (by simp [CM.init])
      (by simpa [CM.init] using hmc) (by simpa [CM.init] using hmc)
    have ha := acq_rel_le_submitted ops (CM.init mc)
    simp only [CM.init] at *
    omega
  · intro s h
    by_cases hc : s.submitted_tasks < s.max_concurrent
    · simp [trySubmitTask, hc] at h
    · simp [trySubmitTask, hc]

/-- Concrete instance of C1: three acquisitions and one release on a
manager with `max_concurrent = 3` stay within the bound, and a failed
`try_submit_task` on a full manager changes nothing. -/
theorem c1_admission_bound_witness :
    ((acqCount (CM.init 3)
        [CMOp.trySubmit, CMOp.trySubmit, CMOp.finish, CMOp.trySubmit] : Int) -
      relCount [CMOp.trySubmit, CMOp.trySubmit, CMOp.finish, CMOp.trySubmit] ≤ 3) ∧
    (trySubmitTask (CM.mk 1 1 1)).2 = CM.mk 1 1 1 :=
  ⟨(c1_admission_bound 3 [CMOp.trySubmit, CMOp.trySubmit, CMOp.finish, CMOp.trySubmit]
      (by decide)).1,
   (c1_admission_bound 1 [] (by decide)).2 (CM.mk 1 1 1) (by decide)⟩

lemma cmStep_running_eq (s : CM) (op : CMOp)
    (h : s.running_tasks = s.submitted_tasks) :
    (cmStep s op).running_tasks = (cmStep s op).submitted_tasks := by
  cases op
  · simp only [cmStep, trySubmitTask]
    split <;> simp [h]
  · simp only [cmStep, taskFinished, h]

/-- Claim C10: from a fresh manager, after any sequence of
`try_submit_task` and `task_finished` calls, `running_tasks` equals
`submitted_tasks`, so `get_status` reports `queued = 0`, which in
particular is never negative. -/
theorem c10_running_eq_submitted (mc : Int) (ops : List CMOp) :
    (cmRun (CM.init mc) ops).running_tasks =
        (cmRun (CM.init mc) ops).submitted_tasks ∧
    (getStatus (cmRun (CM.init mc) ops)).queued = 0 ∧
    0 ≤ (getStatus (cmRun (CM.init mc) ops)).queued := by
  have key : ∀ (l : List CMOp) (s : CM), s.running_tasks = s.submitted_tasks →
      (cmRun s l).running_tasks = (cmRun s l).submitted_tasks := by
    intro l
    induction l with
    | nil => intro s h; exact h
    | cons op ops ih => intro s h; exact ih _ (cmStep_running_eq s op h)
  have h := key ops (CM.init mc) rfl
  refine ⟨h, ?_, ?_⟩ <;> simp [getStatus, h]

lemma taskFinished_after_acquire (s : CM) (h0 : 0 ≤ s.submitted_tasks)
    (h1 : 0 ≤ s.running_tasks) :
    taskFinished { s with submitted_tasks := s.submitted_tasks + 1,
                          running_tasks := s.running_tasks + 1 } = s := by
  obtain ⟨mc, sub, run⟩ := s
  have h0a : 0 ≤ sub := h0
  have h1a : 0 ≤ run := h1
  simp only [taskFinished, CM.mk.injEq]
  refine ⟨by trivial, by omega, by omega⟩

/-- Claim C2: with `use_concurrency_control=True`, whenever an admission
slot is acquired (in this model, exactly when `submitted_tasks <
max_concurrent` at entry) `task_finished` runs exactly once on every
exit path — success, provider failure, timeout result, or raised
exception — and the manager counters return to their pre-call values;
when no slot is acquired (jimeng's input-count guard returns before the
try block) `task_finished` is never called and the state is unchanged. -/
theorem c2_release_symmetry {R : Type} (s : CM) (ex : GenExit R)
    (h0 : 0 ≤ s.submitted_tasks) (h1 : 0 ≤ s.running_tasks)
    (hcap : s.submitted_tasks < s.max_concurrent) :
    (generateImage s true ex = some ⟨exitResult ex, s, 1⟩) ∧
    (∀ n : Nat, n ∈ MODEL_CONFIGS_keys →
      jimengGenerateImage s n true ex = some ⟨exitResult ex, s, 1⟩) ∧
    (∀ n : Nat, n ∉ MODEL_CONFIGS_keys →
      jimengGenerateImage s n true ex = some ⟨none, s, 0⟩) := by
  have hrestore := taskFinished_after_acquire s h0 h1
  have hmain : generateImage s true ex = some ⟨exitResult ex, s, 1⟩ := by
    simp only [generateImage, trySubmitTask, if_pos hcap]
    cases ex <;> simp [runFinally, hrestore, exitResult]
  refine ⟨hmain, ?_, ?_⟩
  · intro n hn
    simp [jimengGenerateImage, hn, hmain]
  · intro n hn
    simp [jimengGenerateImage, hn]

/-- Concrete instance of C2: on a fresh manager with capacity 3, a
successful generation releases its slot exactly once and restores the
counters; an invalid jimeng input count never acquires nor releases. -/
theorem c2_release_symmetry_witness :
    generateImage (CM.init 3) true (GenExit.polled (some 42)) =
      some ⟨some 42, CM.init 3, 1⟩ ∧
    jimengGenerateImage (CM.init 3) 2 true (GenExit.polled (some 42)) =
      some ⟨some 42, CM.init 3, 1⟩ ∧
    jimengGenerateImage (CM.init 3) 7 true (GenExit.polled (some 42)) =
      some ⟨none, CM.init 3, 0⟩ := by
  have h := @c2_release_symmetry Nat (CM.init 3) (GenExit.polled (some 42))
      (by decide) (by decide) (by decide)
  exact ⟨h.1, h.2.1 2 (by decide), h.2.2 7 (by decide)⟩

lemma submitFrom_posts_le (resps : Nat → SubmitResp) (jitter : Nat → ℚ)
    (rem attempt : Nat) :
    (submitFrom resps jitter attempt rem).2.1 ≤ rem := by
  induction rem generalizing attempt with
  | zero => simp [submitFrom]
  | succ n ih =>
    rw [submitFrom]
    split
    · simp
    · split
      · have h := ih (attempt + 1)
        dsimp only
        omega
      · simp

/-- Claim C8: during submission a provider-reported queue-full error
(TASK_QUEUE_MAXED in the message) triggers a retry after the
exponentially growing backoff with random jitter, while any other
provider error fails the call immediately with no further POSTs; the
loop never issues more than the fixed ceiling of
`max_submission_retries = 3` attempts; the backoff of attempt a is
`5 * 2 ^ a` plus the jitter, strictly growing while the jitter stays in
[0, 1). -/
theorem c8_submission_retry_policy :
    (∀ (resps : Nat → SubmitResp) (jitter : Nat → ℚ) (attempt rem : Nat),
      (resps attempt).code ≠ 0 → hasQueueMaxed (resps attempt).msg = true →
      attempt < max_submission_retries - 1 →
      submitFrom resps jitter attempt (rem + 1) =
        ((submitFrom resps jitter (attempt + 1) rem).1,
         (submitFrom resps jitter (attempt + 1) rem).2.1 + 1,
         retryDelay attempt (jitter attempt) ::
           (submitFrom resps jitter (attempt + 1) rem).2.2)) ∧
    (∀ (resps : Nat → SubmitResp) (jitter : Nat → ℚ) (attempt rem : Nat),
      (resps attempt).code ≠ 0 → hasQueueMaxed (resps attempt).msg = false →
      submitFrom resps jitter attempt (rem + 1) = (none, 1, [])) ∧
    (∀ (resps : Nat → SubmitResp) (jitter : Nat → ℚ),
      (qwenSubmissionLoop resps jitter).2.1 ≤ max_submission_retries) ∧
    (∀ (a : Nat) (j1 j2 : ℚ), 0 ≤ j1 → j1 < 1 → 0 ≤ j2 →
      retryDelay a j1 = 5 * 2 ^ a + j1 ∧
        retryDelay a j1 < retryDelay (a + 1) j2) := by
  refine ⟨?_, ?_, ?_, ?_⟩
  · intro resps jitter attempt rem hcode hq hlt
    rw [submitFrom, if_neg hcode, if_pos ⟨hq, hlt⟩]
  · intro resps jitter attempt rem hcode hq
    rw [submitFrom, if_neg hcode, if_neg]
    intro hand
    rw [hq] at hand
    exact absurd hand.1 (by simp)
  · intro resps jitter
    exact submitFrom_posts_le resps jitter max_submission_retries 0
  · intro a j1 j2 h0 h1 h2
    refine ⟨rfl, ?_⟩
    have hp : (1 : ℚ) ≤ 2 ^ a := by
      induction a with
      | zero => norm_num
      | succ n ih => rw [pow_succ]; nlinarith
    simp only [retryDelay, base_retry_delay, pow_succ]
    nlinarith

/-- Concrete instance of C8: a queue-full first response is retried
after the attempt-0 backoff; an unrelated error fails at once with a
single POST; the loop stays within 3 POSTs; the backoff strictly grows
from attempt 0 to attempt 1. -/
theorem c8_submission_retry_policy_witness :
    (submitFrom queueMaxedResps zeroJitter 0 3 =
      ((submitFrom queueMaxedResps zeroJitter 1 2).1,
       (submitFrom queueMaxedResps zeroJitter 1 2).2.1 + 1,
       retryDelay 0 (zeroJitter 0) ::
         (submitFrom queueMaxedResps zeroJitter 1 2).2.2)) ∧
    (submitFrom plainErrResps zeroJitter 0 3 = (none, 1, [])) ∧
    ((qwenSubmissionLoop queueMaxedResps zeroJitter).2.1 ≤ max_submission_retries) ∧
    (retryDelay 0 0 = 5 * 2 ^ 0 + 0 ∧ retryDelay 0 0 < retryDelay 1 (1 / 2)) := by
  obtain ⟨h1, h2, h3, h4⟩ := c8_submission_retry_policy
  exact ⟨h1 queueMaxedResps zeroJitter 0 2 (by decide) (by decide) (by decide),
         h2 plainErrResps zeroJitter 0 2 (by decide) (by decide),
         h3 queueMaxedResps zeroJitter,
         h4 0 0 (1 / 2) (by norm_num) (by norm_num) (by norm_num)⟩

/-- Counterexample to C7 as stated, on `JimengImg2ImgRH._poll_task_status`
(one of the two implementations the claim covers): four consecutive
transient polling errors — exceeding the claimed bound of 3 consecutive
attempts — do not make the polling operation fail; the poll continues
and succeeds afterwards. -/
theorem c7_counterexample :
    fourErrsThenSuccess 0 = PollResp.transientErr ∧
    fourErrsThenSuccess 1 = PollResp.transientErr ∧
    fourErrsThenSuccess 2 = PollResp.transientErr ∧
    fourErrsThenSuccess 3 = PollResp.transientErr ∧
    jimengPollLoop fourErrsThenSuccess 0 6 = PollOutcome.gotResult := by
  exact ⟨rfl, rfl, rfl, rfl, rfl⟩

/-- C7 as amended: in `QwenImageT2IRH._poll_task_status` up to 2 leading
transient errors are retried in place without changing the outcome of
the poll attempt, and 3 consecutive transient failures fail the whole
polling operation; in `JimengImg2ImgRH._poll_task_status` a transient
error merely consumes one iteration of the timeout budget and the
operation is never failed because of transient errors. -/
theorem c7_transient_poll_retries :
    (∀ (resps : Nat → PollResp) (k : Nat), k ≤ 2 →
      resps 0 ≠ PollResp.transientErr →
      (qwenInner (padErrs k resps) 0 max_poll_retries).1 =
        (qwenInner resps 0 max_poll_retries).1) ∧
    (∀ (resps : Nat → PollResp) (fuel : Nat),
      qwenPollLoop (padErrs 3 resps) 0 (fuel + 1) = PollOutcome.pollExhausted) ∧
    (∀ (resps : Nat → PollResp) (i fuel : Nat),
      resps i = PollResp.transientErr →
      jimengPollLoop resps i (fuel + 1) = jimengPollLoop resps (i + 1) fuel) ∧
    (∀ (resps : Nat → PollResp) (i fuel : Nat),
      jimengPollLoop resps i fuel ≠ PollOutcome.pollExhausted) := by
  refine ⟨?_, ?_, ?_, ?_⟩
  · intro resps k hk hne
    interval_cases k <;>
      (cases hr : resps 0 with
       | transientErr => exact absurd hr hne
       | ok st => cases st <;> simp [qwenInner, padErrs, max_poll_retries, hr])
  · intro resps fuel
    simp [qwenPollLoop, qwenInner, padErrs, max_poll_retries]
  · intro resps i fuel h
    simp [jimengPollLoop, h]
  · intro resps i fuel
    induction fuel generalizing i with
    | zero => simp [jimengPollLoop]
    | succ n ih =>
      cases hr : resps i with
      | transientErr => simpa [jimengPollLoop, hr] using ih (i + 1)
      | ok st => cases st <;> simp [jimengPollLoop, hr] <;> exact ih (i + 1)

/-- Concrete instance of the amended C7. -/
theorem c7_transient_poll_retries_witness :
    ((qwenInner (padErrs 2 allQueuedResps) 0 max_poll_retries).1 =
      (qwenInner allQueuedResps 0 max_poll_retries).1) ∧
    (qwenPollLoop (padErrs 3 allQueuedResps) 0 (0 + 1) = PollOutcome.pollExhausted) ∧
    (jimengPollLoop fourErrsThenSuccess 0 (5 + 1) =
      jimengPollLoop fourErrsThenSuccess (0 + 1) 5) ∧
    (jimengPollLoop fourErrsThenSuccess 0 6 ≠ PollOutcome.pollExhausted) := by
  obtain ⟨h1, h2, h3, h4⟩ := c7_transient_poll_retries
  exact ⟨h1 allQueuedResps 2 (by decide) (by decide),
         h2 allQueuedResps 0,
         h3 fourErrsThenSuccess 0 5 (by decide),
         h4 fourErrsThenSuccess 0 6⟩

/-- Claim C3 (code defect, evaluated on a concrete FAILED row):
`reset_task_for_retry` passes `runninghub_task_id=None` and
`error_message=None`, but `update_task` skips falsy/None arguments, so
the reset leaves `task_id` and `error_message` unchanged — they are not
cleared to NULL — while it does move the task to PENDING and increment
`retry_count` by exactly one. -/
theorem c3_reset_does_not_clear :
    (resetTaskForRetry failedTask 50).1.task_id = some "rh-123" ∧
    (resetTaskForRetry failedTask 50).1.error_message = some "provider error" ∧
    (resetTaskForRetry failedTask 50).1.retry_count = failedTask.retry_count + 1 ∧
    (resetTaskForRetry failedTask 50).1.status = TaskStatus.PENDING ∧
    (resetTaskForRetry failedTask 50).2 = true := by
  exact ⟨rfl, rfl, rfl, rfl, rfl⟩

lemma checkTaskStatus_fields (t : AITask) (obs : PollObs) (now : Nat) :
    (checkTaskStatus t obs now).1.retry_count = t.retry_count ∧
    (checkTaskStatus t obs now).1.max_retries = t.max_retries := by
  rw [checkTaskStatus]
  split
  · exact ⟨rfl, rfl⟩
  · split <;>
      first
        | exact ⟨rfl, rfl⟩
        | (split_ifs <;> exact ⟨rfl, rfl⟩)

lemma workerStep_retry_le (thresh : Nat) (t : AITask) (e : WorkerEvent)
    (h : t.retry_count ≤ t.max_retries) :
    (workerStep thresh t e).retry_count ≤ (workerStep thresh t e).max_retries := by
  cases e with
  | submitOk rid now =>
    simp only [workerStep]
    split_ifs with hp
    · by_cases hr : (rid == "") = true <;>
        simp [updateTask, wantsWrite, strTruthy, applyStatusArg, applyRid,
          applyResultUrl, applyR2Key, applyErrMsg, applyIncr, applyLastPoll, hr, h]
    · exact h
  | submitErr msg now =>
    simp only [workerStep]
    split_ifs with hp
    · simpa [updateTask, wantsWrite, strTruthy, applyStatusArg, applyRid,
        applyResultUrl, applyR2Key, applyErrMsg, applyIncr, applyLastPoll] using h
    · exact h
  | pollVisit obs now =>
    simp only [workerStep]
    split_ifs with hp
    · have hf := checkTaskStatus_fields t obs now
      rw [hf.1, hf.2]
      exact h
    · exact h
  | timeoutSweep now =>
    simp only [workerStep]
    split_ifs with hp
    · simpa [updateTask, wantsWrite, strTruthy, applyStatusArg, applyRid,
        applyResultUrl, applyR2Key, applyErrMsg, applyIncr, applyLastPoll] using h
    · exact h
  | retrySweep now =>
    simp only [workerStep]
    split_ifs with hp
    · have hlt : t.retry_count < t.max_retries := by
        simp [retryEligible] at hp
        exact hp.2
      have hr : (resetTaskForRetry t now).1.retry_count = t.retry_count + 1 := rfl
      have hm : (resetTaskForRetry t now).1.max_retries = t.max_retries := rfl
      rw [hr, hm]
      omega
    · exact h

lemma runWorker_retry_le (thresh : Nat) (t : AITask) (evs : List WorkerEvent)
    (h : t.retry_count ≤ t.max_retries) :
    (runWorker thresh t evs).retry_count ≤ (runWorker thresh t evs).max_retries := by
  induction evs generalizing t with
  | nil => exact h
  | cons e es ih => exact ih _ (workerStep_retry_le thresh t e h)

lemma workerStep_failed_exhausted (thresh : Nat) (t : AITask) (e : WorkerEvent)
    (hst : t.status = TaskStatus.FAILED) (hrc : t.retry_count = t.max_retries) :
    workerStep thresh t e = t := by
  cases e with
  | submitOk rid now => simp [workerStep, hst]
  | submitErr msg now => simp [workerStep, hst]
  | pollVisit obs now => simp [workerStep, isActive, hst]
  | timeoutSweep now => simp [workerStep, staleAt, isActive, hst]
  | retrySweep now =>
    have hd : decide (t.retry_count < t.max_retries) = false :=
      decide_eq_false (by omega)
    simp [workerStep, retryEligible, hd]

lemma runWorker_failed_exhausted (thresh : Nat) (t : AITask)
    (evs : List WorkerEvent) (hst : t.status = TaskStatus.FAILED)
    (hrc : t.retry_count = t.max_retries) :
    runWorker thresh t evs = t := by
  induction evs with
  | nil => rfl
  | cons e es ih =>
    rw [runWorker, workerStep_failed_exhausted thresh t e hst hrc]
    exact ih

/-- Claim C4: starting from a freshly created task with nonnegative
`max_retries`, after any sequence of worker-pass visits `retry_count`
never exceeds `max_retries`; and a FAILED task whose `retry_count` has
reached `max_retries` is not retry-eligible and is left untouched by
every further worker pass, so it remains FAILED forever. -/
theorem c4_retry_budget (thresh : Nat) (mr : Int) (evs : List WorkerEvent)
    (hmr : 0 ≤ mr) :
    ((runWorker thresh (createTask mr) evs).retry_count ≤
      (runWorker thresh (createTask mr) evs).max_retries) ∧
    (∀ (t : AITask) (es : List WorkerEvent), t.status = TaskStatus.FAILED →
      t.retry_count = t.max_retries →
      retryEligible t = false ∧ runWorker thresh t es = t ∧
        (runWorker thresh t es).status = TaskStatus.FAILED) := by
  constructor
  · exact runWorker_retry_le thresh (createTask mr) evs
      (by simpa [createTask] using hmr)
  · intro t es hst hrc
    have hrun := runWorker_failed_exhausted thresh t es hst hrc
    have hd : decide (t.retry_count < t.max_retries) = false :=
      decide_eq_false (by omega)
    exact ⟨by simp [retryEligible, hd], hrun, by rw [hrun]; exact hst⟩

/-- Concrete instance of C4: one retry sweep on a fresh task keeps the
budget; a FAILED task with an exhausted budget is untouched by a
further retry sweep. -/
theorem c4_retry_budget_witness :
    ((runWorker 1800 (createTask 3) [WorkerEvent.retrySweep 0]).retry_count ≤
      (runWorker 1800 (createTask 3) [WorkerEvent.retrySweep 0]).max_retries) ∧
    (retryEligible exhaustedTask = false ∧
      runWorker 1800 exhaustedTask [WorkerEvent.retrySweep 5] = exhaustedTask ∧
      (runWorker 1800 exhaustedTask
        [WorkerEvent.retrySweep 5]).status = TaskStatus.FAILED) := by
  obtain ⟨h1, h2⟩ := c4_retry_budget 1800 3 [WorkerEvent.retrySweep 0] (by decide)
  exact ⟨h1, h2 exhaustedTask [WorkerEvent.retrySweep 5] rfl rfl⟩

/-- Claim C5: the retry sweep's selection predicate admits only FAILED
tasks, and a task that has reached TIMEOUT is never transitioned again
by any worker pass — in particular it is never reset to PENDING. -/
theorem c5_timeout_never_retried (thresh : Nat) :
    (∀ t : AITask, retryEligible t = true → t.status = TaskStatus.FAILED) ∧
    (∀ (t : AITask) (evs : List WorkerEvent), t.status = TaskStatus.TIMEOUT →
      runWorker thresh t evs = t) := by
  constructor
  · intro t h
    simp [retryEligible] at h
    exact h.1
  · intro t evs hst
    induction evs with
    | nil => rfl
    | cons e es ih =>
      have hstep : workerStep thresh t e = t := by
        cases e with
        | submitOk rid now => simp [workerStep, hst]
        | submitErr msg now => simp [workerStep, hst]
        | pollVisit obs now => simp [workerStep, isActive, hst]
        | timeoutSweep now => simp [workerStep, staleAt, isActive, hst]
        | retrySweep now => simp [workerStep, retryEligible, hst]
      rw [runWorker, hstep]
      exact ih

/-- Concrete instance of C5: a retry-eligible row is FAILED, and a
TIMEOUT row survives a poll visit followed by a retry sweep
unchanged. -/
theorem c5_timeout_never_retried_witness :
    failedTask.status = TaskStatus.FAILED ∧
    runWorker 1800 timeoutTask
      [WorkerEvent.pollVisit queuedObs 7, WorkerEvent.retrySweep 8] =
      timeoutTask := by
  obtain ⟨h1, h2⟩ := c5_timeout_never_retried 1800
  exact ⟨h1 failedTask (by decide), h2 timeoutTask _ rfl⟩

lemma checkTaskStatus_queued (t : AITask) (obs : PollObs) (now : Nat)
    (htid : strTruthy t.task_id = true)
    (hobs : obs.info = some RHStatus.QUEUED) :
    checkTaskStatus t obs now =
      if t.status ≠ TaskStatus.QUEUED then
        ((updateTask t { status := some TaskStatus.QUEUED } now).1, 1)
      else (t, 0) := by
  simp [checkTaskStatus, htid, hobs, newStatusOf]

lemma checkTaskStatus_running (t : AITask) (obs : PollObs) (now : Nat)
    (htid : strTruthy t.task_id = true)
    (hobs : obs.info = some RHStatus.RUNNING) :
    checkTaskStatus t obs now =
      if t.status ≠ TaskStatus.RUNNING then
        ((updateTask t { status := some TaskStatus.RUNNING } now).1, 1)
      else (t, 0) := by
  simp [checkTaskStatus, htid, hobs, newStatusOf]

/-- Claim C6: on a poll-pass visit, a QUEUED/RUNNING provider report
equal to the stored status issues no database write and leaves the row
unchanged; a status write is issued exactly when the observed status
differs; hence two consecutive polls of the same unchanged provider
status produce at most one write in total. -/
theorem c6_idempotent_poll_writes (t : AITask) (obs : PollObs) (rs : RHStatus)
    (now now2 : Nat) (htid : strTruthy t.task_id = true)
    (hobs : obs.info = some rs)
    (hq : rs = RHStatus.QUEUED ∨ rs = RHStatus.RUNNING) :
    (t.status = newStatusOf rs → checkTaskStatus t obs now = (t, 0)) ∧
    (t.status ≠ newStatusOf rs → (checkTaskStatus t obs now).2 = 1 ∧
      (checkTaskStatus t obs now).1.status = newStatusOf rs) ∧
    ((checkTaskStatus t obs now).2 +
      (checkTaskStatus (checkTaskStatus t obs now).1 obs now2).2 ≤ 1) := by
  rcases hq with hq | hq
  · subst hq
    have harm := checkTaskStatus_queued t obs now htid hobs
    have hnew : newStatusOf RHStatus.QUEUED = TaskStatus.QUEUED := rfl
    rw [hnew]
    refine ⟨?_, ?_, ?_⟩
    · intro heq
      rw [harm, if_neg (not_not_intro heq)]
    · intro hne
      rw [harm, if_pos hne]
      exact ⟨rfl, rfl⟩
    · by_cases heq : t.status = TaskStatus.QUEUED
      · rw [harm, if_neg (not_not_intro heq)]
        have harm2 := checkTaskStatus_queued t obs now2 htid hobs
        simp [harm2, if_neg (not_not_intro heq)]
      · rw [harm, if_pos heq]
        have htid2 : strTruthy
            (updateTask t { status := some TaskStatus.QUEUED } now).1.task_id =
            true := htid
        have hstat2 : (updateTask t
            { status := some TaskStatus.QUEUED } now).1.status =
            TaskStatus.QUEUED := rfl
        have harm2 := checkTaskStatus_queued
          (updateTask t { status := some TaskStatus.QUEUED } now).1 obs now2
          htid2 hobs
        simp [harm2, if_neg (not_not_intro hstat2)]
  · subst hq
    have harm := checkTaskStatus_running t obs now htid hobs
    have hnew : newStatusOf RHStatus.RUNNING = TaskStatus.RUNNING := rfl
    rw [hnew]
    refine ⟨?_, ?_, ?_⟩
    · intro heq
      rw [harm, if_neg (not_not_intro heq)]
    · intro hne
      rw [harm, if_pos hne]
      exact ⟨rfl, rfl⟩
    · by_cases heq : t.status = TaskStatus.RUNNING
      · rw [harm, if_neg (not_not_intro heq)]
        have harm2 := checkTaskStatus_running t obs now2 htid hobs
        simp [harm2, if_neg (not_not_intro heq)]
      · rw [harm, if_pos heq]
        have htid2 : strTruthy
            (updateTask t { status := some TaskStatus.RUNNING } now).1.task_id =
            true := htid
        have hstat2 : (updateTask t
            { status := some TaskStatus.RUNNING } now).1.status =
            TaskStatus.RUNNING := rfl
        have harm2 := checkTaskStatus_running
          (updateTask t { status := some TaskStatus.RUNNING } now).1 obs now2
          htid2 hobs
        simp [harm2, if_neg (not_not_intro hstat2)]

/-- Concrete instance of C6: a QUEUED row polled as QUEUED gets zero
writes; a SUBMITTED row polled as QUEUED gets exactly one write, and a
second identical poll adds none. -/
theorem c6_idempotent_poll_writes_witness :
    (checkTaskStatus queuedTask queuedObs 200 = (queuedTask, 0)) ∧
    ((checkTaskStatus submittedTask queuedObs 200).2 = 1 ∧
      (checkTaskStatus submittedTask queuedObs 200).1.status =
        newStatusOf RHStatus.QUEUED) ∧
    ((checkTaskStatus submittedTask queuedObs 200).2 +
      (checkTaskStatus (checkTaskStatus submittedTask queuedObs 200).1
        queuedObs 201).2 ≤ 1) := by
  have h1 := c6_idempotent_poll_writes queuedTask queuedObs RHStatus.QUEUED
    200 201 (by decide) rfl (Or.inl rfl)
  have h2 := c6_idempotent_poll_writes submittedTask queuedObs RHStatus.QUEUED
    200 201 (by decide) rfl (Or.inl rfl)
  exact ⟨h1.1 rfl, h2.2.1 (by decide), h2.2.2⟩

/-- Counterexample to C9 as stated: a poll-pass visit to an active
(QUEUED) task that observes the same QUEUED provider status issues no
write, so `last_poll_at` keeps its old value and is not updated for
that poll. -/
theorem c9_counterexample :
    isActive queuedTask.status = true ∧
    queuedObs.info = some RHStatus.QUEUED ∧
    (checkTaskStatus queuedTask queuedObs 200).1.last_poll_at = some 100 ∧
    ¬ (checkTaskStatus queuedTask queuedObs 200).1.last_poll_at = some 200 := by
  exact ⟨rfl, rfl, rfl, by decide⟩

/-- C9 as amended: on a poll-pass visit observing QUEUED/RUNNING,
`last_poll_at` is set to the current time exactly when the observed
status differs from the stored one (the visit that writes the status
change); when they agree the visit issues no write and the whole row —
`last_poll_at` included — is unchanged. -/
theorem c9_last_poll_on_change (t : AITask) (obs : PollObs) (rs : RHStatus)
    (now : Nat) (htid : strTruthy t.task_id = true)
    (hobs : obs.info = some rs)
    (hq : rs = RHStatus.QUEUED ∨ rs = RHStatus.RUNNING) :
    (t.status ≠ newStatusOf rs →
      (checkTaskStatus t obs now).1.last_poll_at = some now) ∧
    (t.status = newStatusOf rs → (checkTaskStatus t obs now).1 = t) := by
  rcases hq with hq | hq
  · subst hq
    have harm := checkTaskStatus_queued t obs now htid hobs
    have hnew : newStatusOf RHStatus.QUEUED = TaskStatus.QUEUED := rfl
    rw [hnew]
    constructor
    · intro hne
      rw [harm, if_pos hne]
      rfl
    · intro heq
      rw [harm, if_neg (not_not_intro heq)]
  · subst hq
    have harm := checkTaskStatus_running t obs now htid hobs
    have hnew : newStatusOf RHStatus.RUNNING = TaskStatus.RUNNING := rfl
    rw [hnew]
    constructor
    · intro hne
      rw [harm, if_pos hne]
      rfl
    · intro heq
      rw [harm, if_neg (not_not_intro heq)]

/-- Concrete instance of the amended C9: a SUBMITTED row polled as
QUEUED gets `last_poll_at` refreshed by the status-change write; a
QUEUED row polled as QUEUED is unchanged. -/
theorem c9_last_poll_on_change_witness :
    ((checkTaskStatus submittedTask queuedObs 200).1.last_poll_at = some 200) ∧
    ((checkTaskStatus queuedTask queuedObs 200).1 = queuedTask) := by
  have h1 := c9_last_poll_on_change submittedTask queuedObs RHStatus.QUEUED
    200 (by decide) rfl (Or.inl rfl)
  have h2 := c9_last_poll_on_change queuedTask queuedObs RHStatus.QUEUED
    200 (by decide) rfl (Or.inl rfl)
  exact ⟨h1.1 (by decide), h2.2 rfl⟩

end ScriptToStoryboards
